import Mathlib

/-!
Shallow embedding of the core inference-and-caching engine of `src/app.py`:
the `JSONSchemaAnalyzer`, the `CacheManager`, and the rendering-time pattern
detector `DynamicDashboardGenerator._detect_data_pattern`.

Records are modelled as association lists from field names to JSON scalar
values; a `pandas.DataFrame` built from a list of such records is modelled by
its observable features used in the source: the union of keys in order of
first appearance (`df.columns`) and the record count (`len(df)`).
-/

namespace App

/-- A JSON scalar value as it appears inside a record.  Nested containers and
booleans do not occur in the datasets the analyzer is specified over; `jnull`
models both JSON `null` and a missing key (pandas `NaN`). -/
inductive JVal where
  | jnum (n : Int)
  | jstr (s : String)
  | jnull
deriving DecidableEq, Repr

/-- A record: a Python dict from field name to value.  Keys are unique by
dict semantics. -/
abbrev Record := List (String × JVal)

/-- The `json_data` argument: either a JSON array of records
(`isinstance(json_data, list)`) or a single JSON object. -/
inductive JsonData where
  | jarr (rs : List Record)
  | jobj (r : Record)
deriving DecidableEq, Repr

/-- Python truthiness of `json_data` (`if not json_data: ...`): an array is
truthy iff non-empty, a dict is truthy iff non-empty. -/
def pyTruthy : JsonData → Bool
  | .jarr rs => !rs.isEmpty
  | .jobj r => !r.isEmpty

/-- `len(json_data)`: length of a list, number of keys of a dict. -/
def recordLen : JsonData → Nat
  | .jarr rs => rs.length
  | .jobj r => r.length

/-- Fold one record's keys into an accumulated column list, keeping first
appearance order and dropping duplicates (pandas column-union semantics). -/
def addCols (acc : List String) (ks : List String) : List String :=
  ks.foldl (fun a k => if k ∈ a then a else a ++ [k]) acc

/-- `pd.DataFrame(rs).columns`: union of the records' keys in order of first
appearance. -/
def dfColumns (rs : List Record) : List String :=
  rs.foldl (fun a r => addCols a (r.map Prod.fst)) []

/-- `df[col]` for one record: the stored value, or `jnull` for a missing key
(pandas fills missing keys with `NaN`). -/
def lookupVal (r : Record) (k : String) : JVal :=
  match r.find? (fun p => p.1 == k) with
  | some p => p.2
  | none => .jnull

/-- `df[col].dropna()`: the non-null values of a column across all records,
in record order. -/
def colValues (rs : List Record) (k : String) : List JVal :=
  (rs.map (fun r => lookupVal r k)).filter (fun v => v ≠ .jnull)

/-- `s.lower()`: the Python datasets in scope are ASCII, where per-character
lowercasing agrees with `str.lower`.  (Defined structurally over the
character list so that it evaluates inside the kernel.) -/
def strLower (s : String) : String :=
  ⟨s.data.map Char.toLower⟩

/-- Python substring test `t in s` (`s` the haystack). -/
def strContains (s t : String) : Bool :=
  decide (t.toList <:+: s.toList)

/-- `any(term in s for term in terms)`. -/
def containsAny (s : String) (terms : List String) : Bool :=
  terms.any (fun t => strContains s t)

/-- `' '.join(columns)` at the character-list level. -/
def joinCols : List (List Char) → List Char
  | [] => []
  | [c] => c
  | c :: d :: rest => c ++ ' ' :: joinCols (d :: rest)

/-- The character list of `' '.join(columns)`. -/
def joinedCols (columns : List String) : List Char :=
  joinCols (columns.map String.toList)

/-- `term in ' '.join(columns)`. -/
def hasSub (columns : List String) (t : String) : Bool :=
  decide (t.toList <:+: joinedCols columns)

/-- `any(term in ' '.join(columns) for term in terms)`. -/
def anyTermJoined (columns : List String) (terms : List String) : Bool :=
  terms.any (fun t => hasSub columns t)

/-- The integer values of a column (used for the numeric-only aggregates). -/
def numVals (values : List JVal) : List Int :=
  values.filterMap (fun v => match v with | .jnum n => some n | _ => none)

/-- One entry of the `column_analysis` dict built by
`JSONSchemaAnalyzer._analyze_columns`.  The pandas dtype string
(`analysis['data_type']`) and `is_datetime` (always false for columns built
from parsed JSON scalars) are library-internal renderings not modelled here;
the numeric-only aggregates are `none` for non-numeric columns, mirroring the
source adding them only under `if analysis['is_numeric']`. -/
structure ColAnalysis where
  name : String
  non_null_count : Nat
  null_count : Nat
  unique_count : Nat
  is_numeric : Bool
  sample_values : List JVal
  min_value : Option Int
  max_value : Option Int
  mean_value : Option ℚ
  has_negative : Option Bool
deriving DecidableEq, Repr

/-- The per-column statistics for a column whose non-null values are
`values` in a dataset of `n` records.  `is_numeric` reflects
`pd.api.types.is_numeric_dtype(col_data)`: true iff every non-null value is
a number. -/
def mkAnalysis (col : String) (values : List JVal) (n : Nat) : ColAnalysis :=
  let nums := numVals values
  let isNum := values.all (fun v => match v with | .jnum _ => true | _ => false)
  { name := col
    non_null_count := values.length
    null_count := n - values.length
    unique_count := values.dedup.length
    is_numeric := isNum
    sample_values := values.take 3
    min_value := if isNum then nums.min? else none
    max_value := if isNum then nums.max? else none
    mean_value := if isNum then some ((nums.sum : ℚ) / nums.length) else none
    has_negative := if isNum then some (nums.any (fun x => x < 0)) else none }

/-- `JSONSchemaAnalyzer._analyze_columns`: `{}` for non-array or empty input,
otherwise one analysis per DataFrame column whose non-null value list is
non-empty, in column order. -/
def analyze_columns : JsonData → List (String × ColAnalysis)
  | .jobj _ => []
  | .jarr [] => []
  | .jarr rs =>
    (dfColumns rs).filterMap (fun col =>
      let values := colValues rs col
      if values.isEmpty then none
      else some (col, mkAnalysis col values rs.length))

/-- The five metric groups built by `JSONSchemaAnalyzer._identify_metrics`. -/
structure Metrics where
  revenue_columns : List String
  date_columns : List String
  categorical_columns : List String
  percentage_columns : List String
  id_columns : List String
deriving DecidableEq, Repr

/-- Revenue token test on a column name:
`any(term in col_lower for term in ['revenue','amount','value','price','cost'])`. -/
def revTok (col : String) : Bool :=
  containsAny (strLower col) ["revenue", "amount", "value", "price", "cost"]

/-- Date token test: `['date','month','quarter','year','time']`. -/
def dateTok (col : String) : Bool :=
  containsAny (strLower col) ["date", "month", "quarter", "year", "time"]

/-- Percentage token test: `['percent','%','rate','ratio']`. -/
def pctTok (col : String) : Bool :=
  containsAny (strLower col) ["percent", "%", "rate", "ratio"]

/-- Identifier token test: `['id','name','customer','client']`. -/
def idTok (col : String) : Bool :=
  containsAny (strLower col) ["id", "name", "customer", "client"]

/-- The classification loop of `_identify_metrics` over the column-analysis
entries; `n` is `len(json_data)`.  The categorical guard
`unique_count < len(json_data) * 0.5` is written `2 * unique_count < n`,
which is equivalent for integers (`u < n/2 ↔ 2u < n`). -/
def identifyAux (n : Nat) : List (String × ColAnalysis) → Metrics
  | [] => ⟨[], [], [], [], []⟩
  | (col, a) :: rest =>
    let m := identifyAux n rest
    if revTok col then
      (if a.is_numeric then { m with revenue_columns := col :: m.revenue_columns } else m)
    else if dateTok col then { m with date_columns := col :: m.date_columns }
    else if pctTok col then { m with percentage_columns := col :: m.percentage_columns }
    else if idTok col then { m with id_columns := col :: m.id_columns }
    else if a.is_numeric = false ∧ 2 * a.unique_count < n then
      { m with categorical_columns := col :: m.categorical_columns }
    else m

/-- `JSONSchemaAnalyzer._identify_metrics`. -/
def identify_metrics (d : JsonData) : Metrics :=
  identifyAux (recordLen d) (analyze_columns d)

/-- The `structure` part of a Schema (`_analyze_structure`): `sample_keys`
is absent (`none`) for single-object input. -/
structure DataStructure where
  type_ : String
  count : Nat
  sample_keys : Option (List String)
deriving DecidableEq, Repr

/-- `JSONSchemaAnalyzer._analyze_structure`. -/
def analyze_structure : JsonData → DataStructure
  | .jobj _ => ⟨"single_object", 1, none⟩
  | .jarr rs =>
    ⟨"array_of_objects", rs.length,
      some (match rs with | [] => [] | r :: _ => r.map Prod.fst)⟩

/-- `JSONSchemaAnalyzer._detect_data_type`: non-array or empty input yields
`unknown`; otherwise the column names of the first `min(5, len)` records are
lowercased, joined with spaces, and matched against the keyword sets in
priority order.  (`pd.DataFrame` over dict records raises no exception, so
the `except` branch is unreachable here.) -/
def detect_data_type : JsonData → String
  | .jobj _ => "unknown"
  | .jarr [] => "unknown"
  | .jarr rs@(_ :: _) =>
    let sample := rs.take (min 5 rs.length)
    let columns := (dfColumns sample).map strLower
    if anyTermJoined columns ["quarter", "q3", "q4", "qoq"] then "quarterly"
    else if anyTermJoined columns ["churn", "expansion", "bridge"] then "bridge"
    else if anyTermJoined columns ["country", "region", "geographic"] then "geographic"
    else if anyTermJoined columns ["customer", "client", "concentration"] then "customer"
    else if anyTermJoined columns ["month", "monthly", "mom"] then "monthly"
    else "general"

/-- The assembled Schema dict. -/
structure Schema where
  data_type : String
  structure_ : DataStructure
  columns : List (String × ColAnalysis)
  metrics : Metrics
  suggested_visualizations : List String
  confidence_score : Nat
deriving DecidableEq, Repr

/-- `JSONSchemaAnalyzer._suggest_visualizations`. -/
def suggest_visualizations (schema : Schema) : List String :=
  let metrics := schema.metrics
  let data_type := schema.data_type
  let s1 : List String :=
    if metrics.revenue_columns ≠ [] then ["bar_chart", "line_chart", "metric_cards"] else []
  let s2 : List String :=
    if data_type = "geographic" then ["pie_chart", "treemap", "bar_chart"] else []
  let s3 : List String :=
    if metrics.date_columns ≠ [] then ["line_chart", "area_chart"] else []
  let s4 : List String :=
    if data_type = "customer" ∨ metrics.id_columns ≠ [] then
      ["treemap", "pareto_chart", "concentration_analysis"] else []
  let s5 : List String :=
    if data_type = "bridge" then ["waterfall_chart", "sankey_diagram"] else []
  let suggestions := s1 ++ s2 ++ s3 ++ s4 ++ s5
  if suggestions = [] then ["table", "bar_chart", "summary_metrics"] else suggestions

/-- `sum(len(v) for v in metrics.values())`. -/
def metricsTotal (m : Metrics) : Nat :=
  m.revenue_columns.length + m.date_columns.length + m.categorical_columns.length +
    m.percentage_columns.length + m.id_columns.length

/-- `JSONSchemaAnalyzer._calculate_confidence`. -/
def calculate_confidence (schema : Schema) : Nat :=
  let score1 := if schema.data_type ≠ "unknown" then 30 else 0
  let score2 := if schema.columns ≠ [] then min 20 (schema.columns.length * 2) else 0
  let score3 := min 30 (metricsTotal schema.metrics * 5)
  let score4 := if schema.suggested_visualizations ≠ [] then 20 else 0
  min 100 (score1 + score2 + score3 + score4)

/-- One cache entry: `{'data': ..., 'timestamp': ...}`.  Timestamps are
seconds as integers (`datetime.now()` differences via `total_seconds()`). -/
structure Entry (α : Type) where
  data : α
  timestamp : Int
deriving DecidableEq, Repr

/-- The shared lookup logic of `get_analysis_cache` / `get_schema_cache` on
one cache dict (modelled as an association list with at most one entry per
key): a present, unexpired entry is returned; an expired entry is deleted
(`del self...cache[cache_key]`) and `None` returned.  Returns the value and
the updated store. -/
def cache_get {α : Type} (ttl now : Int) (store : List (String × Entry α))
    (key : String) : Option α × List (String × Entry α) :=
  match store.find? (fun p => p.1 == key) with
  | some p =>
    if now - p.2.timestamp < ttl then (some p.2.data, store)
    else (none, store.filter (fun q => !(q.1 == key)))
  | none => (none, store)

/-- The shared store logic of `set_analysis_cache` / `set_schema_cache`:
unconditionally (re)bind the key to the value stamped with the current
time. -/
def cache_set {α : Type} (store : List (String × Entry α)) (key : String)
    (v : α) (now : Int) : List (String × Entry α) :=
  (key, ⟨v, now⟩) :: store.filter (fun q => !(q.1 == key))

/-- `CacheManager`: three cache dicts and a TTL.  The analysis and
visualization caches hold an externally chosen payload type `ν` (the loader
stores raw file data there); the schema cache holds Schemas. -/
structure CacheManager (ν : Type) where
  analysis_cache : List (String × Entry ν)
  visualization_cache : List (String × Entry ν)
  schema_cache : List (String × Entry Schema)
  cache_ttl : Int
deriving Repr

/-- `CacheManager.__init__`: empty caches, 300-second TTL. -/
def initCacheManager (ν : Type) : CacheManager ν :=
  ⟨[], [], [], 300⟩

/-- `CacheManager.get_analysis_cache`, with the current time explicit. -/
def get_analysis_cache {ν : Type} (cm : CacheManager ν) (key : String)
    (now : Int) : Option ν × CacheManager ν :=
  let r := cache_get cm.cache_ttl now cm.analysis_cache key
  (r.1, { cm with analysis_cache := r.2 })

/-- `CacheManager.set_analysis_cache`. -/
def set_analysis_cache {ν : Type} (cm : CacheManager ν) (key : String)
    (v : ν) (now : Int) : CacheManager ν :=
  { cm with analysis_cache := cache_set cm.analysis_cache key v now }

/-- `CacheManager.get_schema_cache`, with the current time explicit. -/
def get_schema_cache {ν : Type} (cm : CacheManager ν) (key : String)
    (now : Int) : Option Schema × CacheManager ν :=
  let r := cache_get cm.cache_ttl now cm.schema_cache key
  (r.1, { cm with schema_cache := r.2 })

/-- `CacheManager.set_schema_cache`. -/
def set_schema_cache {ν : Type} (cm : CacheManager ν) (key : String)
    (v : Schema) (now : Int) : CacheManager ν :=
  { cm with schema_cache := cache_set cm.schema_cache key v now }

/-- `CacheManager.clear_cache`. -/
def clear_cache {ν : Type} (cm : CacheManager ν) : CacheManager ν :=
  { cm with analysis_cache := [], visualization_cache := [], schema_cache := [] }

/-- The external collaborators used by `CacheManager.get_cache_key`:
`hashlib.md5(...).hexdigest()` and Python's `str(...)` renderings of a
record, of non-array data, and of the variadic `args` tuple. -/
structure Collab where
  md5hex : String → String
  reprRec : Record → String
  reprOther : JsonData → String
  reprArgs : Option String → String

/-- `CacheManager.get_cache_key(data, *args)` for the analyzer's call shape
(`args = (data_key,)`): for a non-empty array the content fragment hashes
`str(len(data)) + str(data[0])`, otherwise `str(data)`; the two 8-hex-char
fragments are joined by `'_'`. -/
def get_cache_key (h : Collab) (data : JsonData) (args : Option String) : String :=
  let content_hash :=
    match data with
    | .jarr (r :: rest) => (h.md5hex (toString (r :: rest).length ++ h.reprRec r)).take 8
    | _ => (h.md5hex (h.reprOther data)).take 8
  let args_hash := (h.md5hex (h.reprArgs args)).take 8
  content_hash ++ "_" ++ args_hash

/-- `JSONSchemaAnalyzer.analyze_json_schema`: falsy input returns `None`;
otherwise the global cache is consulted (a cached schema dict is always
truthy), and on a miss the Schema is assembled, cached and returned.  State
of the global `cache_manager` is passed explicitly. -/
def analyze_json_schema {ν : Type} (h : Collab) (cm : CacheManager ν)
    (now : Int) (json_data : JsonData) (data_key : Option String) :
    Option Schema × CacheManager ν :=
  if pyTruthy json_data then
    let cache_key := get_cache_key h json_data data_key
    let res := get_schema_cache cm cache_key now
    match res.1 with
    | some cached => (some cached, res.2)
    | none =>
      let schema0 : Schema :=
        { data_type := detect_data_type json_data
          structure_ := analyze_structure json_data
          columns := analyze_columns json_data
          metrics := identify_metrics json_data
          suggested_visualizations := []
          confidence_score := 0 }
      let schema1 := { schema0 with suggested_visualizations := suggest_visualizations schema0 }
      let schema2 := { schema1 with confidence_score := calculate_confidence schema1 }
      (some schema2, set_schema_cache res.2 cache_key schema2 now)
  else (none, cm)

/-- `_detect_data_pattern`'s bridge rule over the lowercased column names. -/
def bridgeCond (columns : List String) : Bool :=
  anyTermJoined columns ["expansion", "contraction", "churn", "new", "bridge", "starting", "ending"]

/-- `_detect_data_pattern`'s customer rule: a customer term and a revenue
term both present. -/
def customerCond (columns : List String) : Bool :=
  anyTermJoined columns ["customer", "client", "company"] &&
    anyTermJoined columns ["revenue", "amount", "value"]

/-- `_detect_data_pattern`'s geographic rule. -/
def geoCond (columns : List String) : Bool :=
  anyTermJoined columns ["country", "region", "geographic", "location"]

/-- `_detect_data_pattern`'s quarterly rule. -/
def quarterlyCond (columns : List String) : Bool :=
  anyTermJoined columns ["q3", "q4", "quarter", "qoq"]

/-- `_detect_data_pattern`'s month-name rule. -/
def monthlyCond (columns : List String) : Bool :=
  anyTermJoined columns ["month", "monthly", "jan", "feb", "mar", "apr", "may", "jun",
    "jul", "aug", "sep", "oct", "nov", "dec"]

/-- `_detect_data_pattern`'s `month_label` + revenue rule. -/
def monthLabelCond (columns : List String) : Bool :=
  hasSub columns "month_label" && anyTermJoined columns ["revenue", "amount", "value"]

/-- `_detect_data_pattern`'s variance rule. -/
def varianceCond (columns : List String) : Bool :=
  hasSub columns "variance" && anyTermJoined columns ["revenue", "amount"]

/-- `_detect_data_pattern`'s time-series rule (before the row-count check). -/
def timeSeriesCond (columns : List String) : Bool :=
  anyTermJoined columns ["date", "time", "period"] &&
    anyTermJoined columns ["revenue", "amount", "value"]

/-- `DynamicDashboardGenerator._detect_data_pattern(df, analysis_type)`,
modelled on the DataFrame's observable inputs: its column names `dfCols` and
its row count `dfLen`.  The nested `if len(df) <= 24` of the time-series
rule falls through to `'default'` when it fails, hence the conjunction. -/
def detect_data_pattern (dfCols : List String) (dfLen : Nat)
    (analysis_type : String) : String :=
  let columns := dfCols.map strLower
  if bridgeCond columns then "revenue_bridge"
  else if customerCond columns then "customer_analysis"
  else if geoCond columns then "geographic"
  else if quarterlyCond columns then "quarterly"
  else if monthlyCond columns then "monthly_trends"
  else if monthLabelCond columns then "monthly_trends"
  else if varianceCond columns then "monthly_trends"
  else if timeSeriesCond columns && decide (dfLen ≤ 24) then "monthly_trends"
  else "default"

/-- Modelled from the spec's words for the refinement claim about
`_detect_data_type`: "sample up to 5 leading records, inspect the union of
column names (case-insensitive) for category keyword sets in this fixed
priority order", where a keyword set matches when some column name contains
one of its keywords. -/
def detect_data_type_spec : JsonData → String
  | .jobj _ => "unknown"
  | .jarr [] => "unknown"
  | .jarr rs@(_ :: _) =>
    let cols := (dfColumns (rs.take 5)).map strLower
    if cols.any (fun c => containsAny c ["quarter", "q3", "q4", "qoq"]) then "quarterly"
    else if cols.any (fun c => containsAny c ["churn", "expansion", "bridge"]) then "bridge"
    else if cols.any (fun c => containsAny c ["country", "region", "geographic"]) then "geographic"
    else if cols.any (fun c => containsAny c ["customer", "client", "concentration"]) then "customer"
    else if cols.any (fun c => containsAny c ["month", "monthly", "mom"]) then "monthly"
    else "general"

/-!  Space-separated joining preserves and reflects keyword containment:
a space-free needle is an infix of `' '.join(columns)` iff it is an infix of
one of the columns. -/

/-- Unfolding equation: a singleton column list joins to itself. -/
theorem joinCols_singleton (c : List Char) : joinCols [c] = c := by
  simp [joinCols]

/-- Unfolding equation: joining at least two columns inserts one space. -/
theorem joinCols_cons₂ (c d : List Char) (cs : List (List Char)) :
    joinCols (c :: d :: cs) = c ++ ' ' :: joinCols (d :: cs) := by
  simp [joinCols]

/-- An infix without the separator character lies wholly on one side of it. -/
theorem infix_append_cons_iff {α : Type} (c : α) (n a b : List α) (hc : c ∉ n) :
    n <:+: a ++ c :: b ↔ n <:+: a ∨ n <:+: b := by
  constructor
  · rintro ⟨s, t, h⟩
    rcases le_or_lt (s.length + n.length) a.length with h1 | h1
    · left
      refine ⟨s, t.take (a.length - (s.length + n.length)), ?_⟩
      have ha := congrArg (List.take a.length) h.symm
      rw [List.take_left, List.take_append_eq_append_take,
        List.take_of_length_le (by simp; omega), List.length_append] at ha
      exact ha.symm
    · rcases le_or_lt a.length s.length with h2 | h2
      · right
        have hb := congrArg (List.drop a.length) h.symm
        rw [List.drop_left, List.append_assoc, List.drop_append_eq_append_drop,
          Nat.sub_eq_zero_of_le h2, List.drop_zero] at hb
        rcases hd : s.drop a.length with _ | ⟨u0, u1⟩
        · rw [hd, List.nil_append] at hb
          match n, hb with
          | [], _ => exact ⟨[], b, by simp⟩
          | n0 :: n1, hb =>
            exact absurd (List.head_eq_of_cons_eq hb) (fun he => hc (he ▸ List.mem_cons_self _ _))
        · rw [hd, List.cons_append] at hb
          refine ⟨u1, t, ?_⟩
          rw [List.tail_eq_of_cons_eq hb, List.append_assoc]
      · exfalso
        have hq := congrArg (fun l => l[a.length]?) h
        simp only at hq
        rw [List.getElem?_append_right (le_refl a.length), Nat.sub_self,
          List.getElem?_cons_zero] at hq
        rw [List.getElem?_append_left (by simp; omega),
          List.getElem?_append_right (by omega)] at hq
        exact hc (List.getElem?_mem hq)
  · rintro (h | h)
    · exact h.trans ⟨[], c :: b, by simp⟩
    · exact h.trans ⟨a ++ [c], [], by simp⟩

/-- Each column is an infix of the joined column string. -/
theorem infix_joinCols_of_mem {s : List Char} :
    ∀ {L : List (List Char)}, s ∈ L → s <:+: joinCols L := by
  intro L
  induction L with
  | nil => intro h; cases h
  | cons x L' ih =>
    cases L' with
    | nil =>
      intro h
      rcases List.mem_singleton.mp h with rfl
      rw [joinCols_singleton]
    | cons y L'' =>
      intro h
      rw [joinCols_cons₂]
      rcases List.mem_cons.mp h with rfl | h'
      · exact ⟨[], ' ' :: joinCols (y :: L''), by simp⟩
      · exact (ih h').trans ⟨x ++ [' '], [], by simp⟩

/-- A non-empty, space-free needle is an infix of the joined column string
iff it is an infix of one of the columns. -/
theorem infix_joinCols_iff (n : List Char) (hne : n ≠ []) (hsp : ' ' ∉ n)
    (L : List (List Char)) : n <:+: joinCols L ↔ ∃ s ∈ L, n <:+: s := by
  induction L with
  | nil =>
    simp only [joinCols, List.infix_nil, List.not_mem_nil, false_and, exists_false, iff_false]
    exact hne
  | cons x L' ih =>
    cases L' with
    | nil => simp [joinCols]
    | cons y L'' =>
      rw [joinCols_cons₂, infix_append_cons_iff ' ' n x (joinCols (y :: L'')) hsp, ih]
      simp only [List.mem_cons, exists_eq_or_imp]

/-- Keyword matching against the joined, space-separated column string
agrees with per-column keyword matching, for space-free non-empty keywords. -/
theorem anyTermJoined_eq_any (columns terms : List String)
    (h : ∀ t ∈ terms, t.toList ≠ [] ∧ ' ' ∉ t.toList) :
    anyTermJoined columns terms = columns.any (fun c => containsAny c terms) := by
  rw [Bool.eq_iff_iff]
  simp only [anyTermJoined, hasSub, containsAny, strContains, List.any_eq_true,
    decide_eq_true_eq, joinedCols]
  constructor
  · rintro ⟨t, ht, hinf⟩
    obtain ⟨s, hs, hns⟩ :=
      (infix_joinCols_iff _ (h t ht).1 (h t ht).2 _).mp hinf
    obtain ⟨c, hc, rfl⟩ := List.mem_map.mp hs
    exact ⟨c, hc, t, ht, hns⟩
  · rintro ⟨c, hc, t, ht, hinf⟩
    refine ⟨t, ht, (infix_joinCols_iff _ (h t ht).1 (h t ht).2 _).mpr ?_⟩
    exact ⟨c.toList, List.mem_map_of_mem _ hc, hinf⟩

/-! Cache-store lemmas shared by the schema- and analysis-cache methods. -/

/-- After deleting a key, no entry for it can be found. -/
theorem find?_filter_ne {α : Type} (store : List (String × Entry α)) (k : String) :
    (store.filter (fun q => !(q.1 == k))).find? (fun p => p.1 == k) = none := by
  rw [List.find?_eq_none]
  intro x hx
  have := (List.mem_filter.mp hx).2
  simpa using this

/-- A lookup that finds nothing returns `none` and leaves the store as is. -/
theorem cache_get_of_find?_none {α : Type} (ttl now : Int)
    (store : List (String × Entry α)) (k : String)
    (h : store.find? (fun p => p.1 == k) = none) :
    cache_get ttl now store k = (none, store) := by
  rw [cache_get, h]

/-- A fresh entry (age strictly below the TTL) is returned unchanged. -/
theorem cache_get_set_fresh {α : Type} (ttl now t0 : Int)
    (store : List (String × Entry α)) (k : String) (v : α)
    (h : now - t0 < ttl) :
    cache_get ttl now (cache_set store k v t0) k = (some v, cache_set store k v t0) := by
  rw [cache_get, cache_set, List.find?_cons_of_pos _ (by simp)]
  simp [h]

/-- An expired entry (age at least the TTL) is reported absent and evicted:
the updated store holds no entry for the key, so a second lookup at the same
time also reports absent. -/
theorem cache_get_set_expired {α : Type} (ttl now t0 : Int)
    (store : List (String × Entry α)) (k : String) (v : α)
    (h : ttl ≤ now - t0) :
    (cache_get ttl now (cache_set store k v t0) k).1 = none ∧
    (cache_get ttl now (cache_set store k v t0) k).2.find? (fun p => p.1 == k) = none ∧
    (cache_get ttl now (cache_get ttl now (cache_set store k v t0) k).2 k).1 = none := by
  have h1 : cache_get ttl now (cache_set store k v t0) k =
      (none, (cache_set store k v t0).filter (fun q => !(q.1 == k))) := by
    rw [cache_get, cache_set, List.find?_cons_of_pos _ (by simp)]
    simp only [if_neg (by omega : ¬ (now - t0 < ttl))]
  refine ⟨by rw [h1], ?_, ?_⟩
  · rw [h1]
    exact find?_filter_ne _ _
  · rw [h1, cache_get_of_find?_none _ _ _ _ (find?_filter_ne _ _)]

/-- C2: for every key `k` and value `v`, after `set(k, v)` at time `t0` a
`get(k)` at time `t` with `t - t0 < ttl` returns `v`; with `t - t0 ≥ ttl` it
returns absent and removes the entry, so an immediately following `get(k)`
with no time advance also returns absent — for both the schema cache and the
analysis cache of the `CacheManager`. -/
theorem cache_ttl_correct (ν : Type) (cm : CacheManager ν) (k : String)
    (v : Schema) (w : ν) (t0 t : Int) :
    (t - t0 < cm.cache_ttl →
      (get_schema_cache (set_schema_cache cm k v t0) k t).1 = some v ∧
      (get_analysis_cache (set_analysis_cache cm k w t0) k t).1 = some w) ∧
    (cm.cache_ttl ≤ t - t0 →
      (get_schema_cache (set_schema_cache cm k v t0) k t).1 = none ∧
      (get_schema_cache (set_schema_cache cm k v t0) k t).2.schema_cache.find?
        (fun p => p.1 == k) = none ∧
      (get_schema_cache (get_schema_cache (set_schema_cache cm k v t0) k t).2 k t).1 = none ∧
      (get_analysis_cache (set_analysis_cache cm k w t0) k t).1 = none ∧
      (get_analysis_cache (get_analysis_cache (set_analysis_cache cm k w t0) k t).2 k t).1
        = none) := by
  constructor
  · intro h
    constructor
    · simp only [get_schema_cache, set_schema_cache]
      rw [cache_get_set_fresh _ _ _ _ _ _ h]
    · simp only [get_analysis_cache, set_analysis_cache]
      rw [cache_get_set_fresh _ _ _ _ _ _ h]
  · intro h
    obtain ⟨hs1, hs2, hs3⟩ := cache_get_set_expired cm.cache_ttl t t0 cm.schema_cache k v h
    obtain ⟨ha1, ha2, ha3⟩ := cache_get_set_expired cm.cache_ttl t t0 cm.analysis_cache k w h
    exact ⟨by simpa [get_schema_cache, set_schema_cache] using hs1,
           by simpa [get_schema_cache, set_schema_cache] using hs2,
           by simpa [get_schema_cache, set_schema_cache] using hs3,
           by simpa [get_analysis_cache, set_analysis_cache] using ha1,
           by simpa [get_analysis_cache, set_analysis_cache] using ha3⟩

/-- A concrete Schema value used by closed witnesses. -/
def sampleSchema : Schema :=
  { data_type := "general"
    structure_ := ⟨"array_of_objects", 1, some ["a"]⟩
    columns := []
    metrics := ⟨[], [], [], [], []⟩
    suggested_visualizations := ["table", "bar_chart", "summary_metrics"]
    confidence_score := 50 }

/-- Witness for C2: on a fresh cache manager, a value stored at time 0 is
returned at time 0 (age 0 < 300) and is reported absent — durably — at time
300 (age 300 ≥ 300). -/
theorem cache_ttl_correct_witness :
    ((0 : Int) - 0 < (initCacheManager Unit).cache_ttl ∧
      (get_schema_cache (set_schema_cache (initCacheManager Unit) "k" sampleSchema 0) "k" 0).1
        = some sampleSchema) ∧
    ((initCacheManager Unit).cache_ttl ≤ (300 : Int) - 0 ∧
      (get_schema_cache (set_schema_cache (initCacheManager Unit) "k" sampleSchema 0) "k" 300).1
        = none ∧
      (get_schema_cache
        (get_schema_cache (set_schema_cache (initCacheManager Unit) "k" sampleSchema 0)
          "k" 300).2 "k" 300).1 = none) :=
  ⟨⟨by decide,
    ((cache_ttl_correct Unit (initCacheManager Unit) "k" sampleSchema () 0 0).1 (by decide)).1⟩,
   ⟨by decide,
    ((cache_ttl_correct Unit (initCacheManager Unit) "k" sampleSchema () 0 300).2 (by decide)).1,
    ((cache_ttl_correct Unit (initCacheManager Unit) "k" sampleSchema () 0 300).2
      (by decide)).2.2.1⟩⟩

/-- C3: for non-empty array data, the derived cache key is a function only
of the array's length, its first element, and the context arguments: two
non-empty arrays of equal length and equal first element yield the same key
under the same context arguments (whatever the hashing and rendering
collaborators are). -/
theorem get_cache_key_fingerprint_congruence (h : Collab) (d1 d2 : List Record)
    (args : Option String) (h1 : d1 ≠ []) (h2 : d2 ≠ [])
    (hlen : d1.length = d2.length) (hhead : d1.head? = d2.head?) :
    get_cache_key h (.jarr d1) args = get_cache_key h (.jarr d2) args := by
  rcases d1 with _ | ⟨r1, rest1⟩
  · exact absurd rfl h1
  rcases d2 with _ | ⟨r2, rest2⟩
  · exact absurd rfl h2
  simp only [List.head?_cons, Option.some.injEq] at hhead
  simp only [List.length_cons, Nat.add_right_cancel_iff] at hlen
  unfold get_cache_key
  simp only [List.length_cons, hhead, hlen]

/-- Witness for C3: two different two-record datasets sharing length and
first record derive the same key. -/
theorem get_cache_key_fingerprint_congruence_witness :
    ([[("a", JVal.jnum 1)], [("b", JVal.jnum 2)]] : List Record) ≠ [] ∧
    ([[("a", JVal.jnum 1)], [("c", JVal.jnum 3)]] : List Record) ≠ [] ∧
    get_cache_key ⟨id, fun r => toString r.length, fun _ => "", fun _ => ""⟩
        (.jarr [[("a", JVal.jnum 1)], [("b", JVal.jnum 2)]]) (some "k") =
      get_cache_key ⟨id, fun r => toString r.length, fun _ => "", fun _ => ""⟩
        (.jarr [[("a", JVal.jnum 1)], [("c", JVal.jnum 3)]]) (some "k") :=
  ⟨by decide, by decide,
    get_cache_key_fingerprint_congruence _ _ _ _ (by decide) (by decide) rfl rfl⟩

/-- C9: for every assembled Schema, the confidence score equals the additive
formula (30 for a known data type, plus `min 20 (2·columns)`, plus
`min 30 (5·metric memberships)`, plus 20 for non-empty visualization
suggestions) clamped to at most 100; hence it always lies in `[0, 100]`. -/
theorem confidence_score_formula_and_bounds (s : Schema) :
    calculate_confidence s =
      min 100 ((if s.data_type ≠ "unknown" then 30 else 0) +
        min 20 (2 * s.columns.length) +
        min 30 (5 * metricsTotal s.metrics) +
        (if s.suggested_visualizations ≠ [] then 20 else 0)) ∧
    0 ≤ calculate_confidence s ∧ calculate_confidence s ≤ 100 := by
  refine ⟨?_, Nat.zero_le _, Nat.min_le_left _ _⟩
  by_cases hc : s.columns = []
  · simp [calculate_confidence, hc, Nat.mul_comm]
  · simp [calculate_confidence, hc, Nat.mul_comm]

/-- C10: `_detect_data_pattern` ignores its `analysis_type` argument — the
classification depends only on the column names and the row count. -/
theorem detect_pattern_ignores_declared_category (dfCols : List String)
    (dfLen : Nat) (c1 c2 : String) :
    detect_data_pattern dfCols dfLen c1 = detect_data_pattern dfCols dfLen c2 := rfl

/-- A concrete choice of hashing/rendering collaborators, for closed
statements. -/
def trivialCollab : Collab :=
  ⟨id, fun _ => "", fun _ => "", fun _ => ""⟩

/-- Counterexample to C1: on the empty array `[]`, `analyze_json_schema`
returns `None` — no Schema at all, in particular not one with
`data_type = "unknown"`, empty columns and confidence 0. -/
theorem analyze_empty_array_returns_none :
    (analyze_json_schema trivialCollab (initCacheManager Unit) 0 (.jarr []) none).1
      = none := rfl

/-- C1 (amended): `analyze_json_schema` returns `None` (absent, with the
cache untouched), not a Schema and not an exception, for the empty array;
for every non-empty array it returns some Schema. -/
theorem analyze_none_on_empty_some_on_nonempty (ν : Type) (h : Collab)
    (cm : CacheManager ν) (now : Int) (dk : Option String) :
    analyze_json_schema h cm now (.jarr []) dk = (none, cm) ∧
    ∀ rs : List Record, rs ≠ [] →
      (analyze_json_schema h cm now (.jarr rs) dk).1.isSome = true := by
  constructor
  · rfl
  · intro rs hrs
    rcases rs with _ | ⟨r, rest⟩
    · exact absurd rfl hrs
    unfold analyze_json_schema
    rw [if_pos (by simp [pyTruthy])]
    dsimp only
    cases hres : (get_schema_cache cm (get_cache_key h (JsonData.jarr (r :: rest)) dk) now).1 <;>
      simp

/-- Witness for C1 (amended): the one-record dataset `[{"a": 1}]` is
non-empty and the analyzer returns some Schema for it. -/
theorem analyze_none_on_empty_some_on_nonempty_witness :
    ([[("a", JVal.jnum 1)]] : List Record) ≠ [] ∧
    (analyze_json_schema trivialCollab (initCacheManager Unit) 0
      (.jarr [[("a", JVal.jnum 1)]]) none).1.isSome = true :=
  ⟨by decide,
    (analyze_none_on_empty_some_on_nonempty Unit trivialCollab (initCacheManager Unit)
      0 none).2 _ (by decide)⟩

/-- If some column contains the term as a substring, the joined column
string contains it too. -/
theorem hasSub_of_mem_infix {columns : List String} {c : String}
    (hc : c ∈ columns) (t : String) (ht : t.toList <:+: c.toList) :
    hasSub columns t = true := by
  unfold hasSub joinedCols
  rw [decide_eq_true_eq]
  exact ht.trans (infix_joinCols_of_mem (List.mem_map_of_mem _ hc))

/-- C7: bridge vocabulary outranks the customer/revenue co-occurrence rule.
Whenever the columns include `churn_amount`, `customer_name` and `revenue`,
`_detect_data_pattern` returns `revenue_bridge` — even though the
customer-analysis condition also holds on those columns. -/
theorem detect_pattern_bridge_precedence (cols : List String) (n : Nat)
    (at_ : String) (h1 : "churn_amount" ∈ cols) (h2 : "customer_name" ∈ cols)
    (h3 : "revenue" ∈ cols) :
    detect_data_pattern cols n at_ = "revenue_bridge" ∧
    customerCond (cols.map strLower) = true := by
  have hchurn : hasSub (cols.map strLower) "churn" = true :=
    hasSub_of_mem_infix (List.mem_map_of_mem _ h1) _ (by decide)
  have hcust : hasSub (cols.map strLower) "customer" = true :=
    hasSub_of_mem_infix (List.mem_map_of_mem _ h2) _ (by decide)
  have hrev : hasSub (cols.map strLower) "revenue" = true :=
    hasSub_of_mem_infix (List.mem_map_of_mem _ h3) _ (by decide)
  have hb : bridgeCond (cols.map strLower) = true := by
    unfold bridgeCond anyTermJoined
    exact List.any_eq_true.mpr ⟨"churn", by decide, hchurn⟩
  have hcc : customerCond (cols.map strLower) = true := by
    unfold customerCond anyTermJoined
    rw [Bool.and_eq_true]
    exact ⟨List.any_eq_true.mpr ⟨"customer", by decide, hcust⟩,
           List.any_eq_true.mpr ⟨"revenue", by decide, hrev⟩⟩
  refine ⟨?_, hcc⟩
  simp [detect_data_pattern, hb]

/-- Witness for C7: the columns `{churn_amount, customer_name, revenue}`
themselves. -/
theorem detect_pattern_bridge_precedence_witness :
    ("churn_amount" ∈ ["churn_amount", "customer_name", "revenue"] ∧
     "customer_name" ∈ ["churn_amount", "customer_name", "revenue"] ∧
     "revenue" ∈ ["churn_amount", "customer_name", "revenue"]) ∧
    detect_data_pattern ["churn_amount", "customer_name", "revenue"] 3 "customer"
      = "revenue_bridge" :=
  ⟨by decide,
    (detect_pattern_bridge_precedence ["churn_amount", "customer_name", "revenue"] 3
      "customer" (by decide) (by decide) (by decide)).1⟩

/-- C8: when none of the bridge, customer, geographic or quarterly rules
fires, `_detect_data_pattern` returns `monthly_trends` whenever the joined
column names contain `month_label` together with a revenue term (for every
record count), or `variance` together with a revenue/amount term, or a
date/time/period term together with a revenue/amount/value term provided
the record count is at most 24. -/
theorem detect_pattern_monthly_rules (cols : List String) (n : Nat) (at_ : String)
    (hb : bridgeCond (cols.map strLower) = false)
    (hc : customerCond (cols.map strLower) = false)
    (hg : geoCond (cols.map strLower) = false)
    (hq : quarterlyCond (cols.map strLower) = false)
    (hm : monthLabelCond (cols.map strLower) = true ∨
          varianceCond (cols.map strLower) = true ∨
          (timeSeriesCond (cols.map strLower) = true ∧ n ≤ 24)) :
    detect_data_pattern cols n at_ = "monthly_trends" := by
  simp only [detect_data_pattern, hb, hc, hg, hq, Bool.false_eq_true, if_false]
  rcases hm with h | h | ⟨h, hn⟩
  · cases hmm : monthlyCond (cols.map strLower) <;> simp [hmm, h]
  · cases hmm : monthlyCond (cols.map strLower) <;>
      cases hml : monthLabelCond (cols.map strLower) <;> simp [hmm, hml, h]
  · cases hmm : monthlyCond (cols.map strLower) <;>
      cases hml : monthLabelCond (cols.map strLower) <;>
      cases hvr : varianceCond (cols.map strLower) <;>
      simp [hmm, hml, hvr, h, hn]

/-- C4: the source's `_detect_data_type` — which joins the lowercased column
names of the first `min(5, len)` records with spaces and substring-matches
the joined string — computes exactly the spec-worded classifier: inspect the
union of column names of at most the 5 leading records, case-insensitively,
per column, for the keyword sets in fixed priority order (quarterly, bridge,
geographic, customer, monthly, else general), with `unknown` for every empty
or non-array input. -/
theorem detect_data_type_refines_spec (d : JsonData) :
    detect_data_type d = detect_data_type_spec d := by
  match d with
  | .jobj _ => rfl
  | .jarr [] => rfl
  | .jarr (r :: rs') =>
    have hs : (r :: rs').take (min 5 (r :: rs').length) = (r :: rs').take 5 := by
      rw [← List.take_take, List.take_length]
    unfold detect_data_type detect_data_type_spec
    dsimp only
    rw [hs]
    rw [anyTermJoined_eq_any ((dfColumns ((r :: rs').take 5)).map strLower)
        ["quarter", "q3", "q4", "qoq"] (by decide),
      anyTermJoined_eq_any _ ["churn", "expansion", "bridge"] (by decide),
      anyTermJoined_eq_any _ ["country", "region", "geographic"] (by decide),
      anyTermJoined_eq_any _ ["customer", "client", "concentration"] (by decide),
      anyTermJoined_eq_any _ ["month", "monthly", "mom"] (by decide)]

/-! Field equations for one step of the `_identify_metrics` loop. -/

/-- The revenue group grows exactly for numeric revenue-token columns. -/
theorem revenue_identifyAux_cons (n : Nat) (col : String) (a : ColAnalysis)
    (rest : List (String × ColAnalysis)) :
    (identifyAux n ((col, a) :: rest)).revenue_columns =
      if revTok col && a.is_numeric then col :: (identifyAux n rest).revenue_columns
      else (identifyAux n rest).revenue_columns := by
  simp only [identifyAux]
  by_cases h1 : revTok col <;> by_cases h2 : a.is_numeric <;>
    by_cases h3 : dateTok col <;> by_cases h4 : pctTok col <;> by_cases h5 : idTok col <;>
    by_cases h6 : 2 * a.unique_count < n <;>
    simp [h1, h2, h3, h4, h5, h6]

/-- The date group grows exactly for non-revenue date-token columns. -/
theorem date_identifyAux_cons (n : Nat) (col : String) (a : ColAnalysis)
    (rest : List (String × ColAnalysis)) :
    (identifyAux n ((col, a) :: rest)).date_columns =
      if !revTok col && dateTok col then col :: (identifyAux n rest).date_columns
      else (identifyAux n rest).date_columns := by
  simp only [identifyAux]
  by_cases h1 : revTok col <;> by_cases h2 : a.is_numeric <;>
    by_cases h3 : dateTok col <;> by_cases h4 : pctTok col <;> by_cases h5 : idTok col <;>
    by_cases h6 : 2 * a.unique_count < n <;>
    simp [h1, h2, h3, h4, h5, h6]

/-- The percentage group grows exactly for columns matching the percent
tokens and no earlier group. -/
theorem percentage_identifyAux_cons (n : Nat) (col : String) (a : ColAnalysis)
    (rest : List (String × ColAnalysis)) :
    (identifyAux n ((col, a) :: rest)).percentage_columns =
      if !revTok col && !dateTok col && pctTok col then
        col :: (identifyAux n rest).percentage_columns
      else (identifyAux n rest).percentage_columns := by
  simp only [identifyAux]
  by_cases h1 : revTok col <;> by_cases h2 : a.is_numeric <;>
    by_cases h3 : dateTok col <;> by_cases h4 : pctTok col <;> by_cases h5 : idTok col <;>
    by_cases h6 : 2 * a.unique_count < n <;>
    simp [h1, h2, h3, h4, h5, h6]

/-- The id group grows exactly for columns matching the id tokens and no
earlier group. -/
theorem id_identifyAux_cons (n : Nat) (col : String) (a : ColAnalysis)
    (rest : List (String × ColAnalysis)) :
    (identifyAux n ((col, a) :: rest)).id_columns =
      if !revTok col && !dateTok col && !pctTok col && idTok col then
        col :: (identifyAux n rest).id_columns
      else (identifyAux n rest).id_columns := by
  simp only [identifyAux]
  by_cases h1 : revTok col <;> by_cases h2 : a.is_numeric <;>
    by_cases h3 : dateTok col <;> by_cases h4 : pctTok col <;> by_cases h5 : idTok col <;>
    by_cases h6 : 2 * a.unique_count < n <;>
    simp [h1, h2, h3, h4, h5, h6]

/-- The categorical group grows exactly for non-numeric columns matching no
token group whose distinct-value count is below half the record count. -/
theorem categorical_identifyAux_cons (n : Nat) (col : String) (a : ColAnalysis)
    (rest : List (String × ColAnalysis)) :
    (identifyAux n ((col, a) :: rest)).categorical_columns =
      if !revTok col && !dateTok col && !pctTok col && !idTok col && !a.is_numeric
          && decide (2 * a.unique_count < n) then
        col :: (identifyAux n rest).categorical_columns
      else (identifyAux n rest).categorical_columns := by
  simp only [identifyAux]
  by_cases h1 : revTok col <;> by_cases h2 : a.is_numeric <;>
    by_cases h3 : dateTok col <;> by_cases h4 : pctTok col <;> by_cases h5 : idTok col <;>
    by_cases h6 : 2 * a.unique_count < n <;>
    simp [h1, h2, h3, h4, h5, h6]

/-- Membership in the revenue group characterized over the whole loop. -/
theorem mem_revenue_identifyAux (n : Nat) (L : List (String × ColAnalysis)) (c : String) :
    c ∈ (identifyAux n L).revenue_columns ↔
      ∃ a, (c, a) ∈ L ∧ revTok c = true ∧ a.is_numeric = true := by
  induction L with
  | nil => simp [identifyAux]
  | cons p rest ih =>
    obtain ⟨col, a⟩ := p
    rw [revenue_identifyAux_cons]
    split_ifs with hca <;>
      simp only [List.mem_cons, ih, Prod.mk.injEq, Bool.and_eq_true] at * <;> aesop

/-- Membership in the date group characterized over the whole loop. -/
theorem mem_date_identifyAux (n : Nat) (L : List (String × ColAnalysis)) (c : String) :
    c ∈ (identifyAux n L).date_columns ↔
      ∃ a, (c, a) ∈ L ∧ revTok c = false ∧ dateTok c = true := by
  induction L with
  | nil => simp [identifyAux]
  | cons p rest ih =>
    obtain ⟨col, a⟩ := p
    rw [date_identifyAux_cons]
    split_ifs with hca <;>
      simp only [List.mem_cons, ih, Prod.mk.injEq, Bool.and_eq_true,
        Bool.not_eq_true'] at * <;> aesop

/-- Membership in the percentage group characterized over the whole loop. -/
theorem mem_percentage_identifyAux (n : Nat) (L : List (String × ColAnalysis)) (c : String) :
    c ∈ (identifyAux n L).percentage_columns ↔
      ∃ a, (c, a) ∈ L ∧ revTok c = false ∧ dateTok c = false ∧ pctTok c = true := by
  induction L with
  | nil => simp [identifyAux]
  | cons p rest ih =>
    obtain ⟨col, a⟩ := p
    rw [percentage_identifyAux_cons]
    split_ifs with hca <;>
      simp only [List.mem_cons, ih, Prod.mk.injEq, Bool.and_eq_true,
        Bool.not_eq_true'] at * <;> aesop

/-- Membership in the id group characterized over the whole loop. -/
theorem mem_id_identifyAux (n : Nat) (L : List (String × ColAnalysis)) (c : String) :
    c ∈ (identifyAux n L).id_columns ↔
      ∃ a, (c, a) ∈ L ∧ revTok c = false ∧ dateTok c = false ∧ pctTok c = false ∧
        idTok c = true := by
  induction L with
  | nil => simp [identifyAux]
  | cons p rest ih =>
    obtain ⟨col, a⟩ := p
    rw [id_identifyAux_cons]
    split_ifs with hca <;>
      simp only [List.mem_cons, ih, Prod.mk.injEq, Bool.and_eq_true,
        Bool.not_eq_true'] at * <;> aesop

/-- Membership in the categorical group characterized over the whole loop. -/
theorem mem_categorical_identifyAux (n : Nat) (L : List (String × ColAnalysis)) (c : String) :
    c ∈ (identifyAux n L).categorical_columns ↔
      ∃ a, (c, a) ∈ L ∧ revTok c = false ∧ dateTok c = false ∧ pctTok c = false ∧
        idTok c = false ∧ a.is_numeric = false ∧ 2 * a.unique_count < n := by
  induction L with
  | nil => simp [identifyAux]
  | cons p rest ih =>
    obtain ⟨col, a⟩ := p
    rw [categorical_identifyAux_cons]
    split_ifs with hca
    · simp only [Bool.and_eq_true, Bool.not_eq_true', decide_eq_true_eq] at hca
      obtain ⟨⟨⟨⟨⟨hr, hd⟩, hp⟩, hi⟩, hn⟩, hu⟩ := hca
      simp only [List.mem_cons, ih, Prod.mk.injEq]
      constructor
      · rintro (rfl | ⟨a', ha', h1, h2, h3, h4, h5, h6⟩)
        · exact ⟨a, Or.inl ⟨rfl, rfl⟩, hr, hd, hp, hi, hn, hu⟩
        · exact ⟨a', Or.inr ha', h1, h2, h3, h4, h5, h6⟩
      · rintro ⟨a', (⟨rfl, rfl⟩ | hmem), h1, h2, h3, h4, h5, h6⟩
        · exact Or.inl rfl
        · exact Or.inr ⟨a', hmem, h1, h2, h3, h4, h5, h6⟩
    · rw [ih]
      simp only [List.mem_cons, Prod.mk.injEq]
      constructor
      · rintro ⟨a', hmem, h⟩
        exact ⟨a', Or.inr hmem, h⟩
      · rintro ⟨a', (⟨rfl, rfl⟩ | hmem), h1, h2, h3, h4, h5, h6⟩
        · exfalso
          simp only [Bool.and_eq_true, Bool.not_eq_true', decide_eq_true_eq, not_and] at hca
          exact absurd h6 (hca ⟨⟨⟨⟨h1, h2⟩, h3⟩, h4⟩, h5⟩)
        · exact ⟨a', hmem, h1, h2, h3, h4, h5, h6⟩

/-- C5: the metric groups are pairwise disjoint — no column name appears in
more than one of revenue/date/percentage/id, and the categorical group only
holds names absent from all four. -/
theorem metric_groups_pairwise_disjoint (d : JsonData) :
    List.Pairwise List.Disjoint
      [(identify_metrics d).revenue_columns, (identify_metrics d).date_columns,
       (identify_metrics d).percentage_columns, (identify_metrics d).id_columns,
       (identify_metrics d).categorical_columns] := by
  have clash : ∀ {b : Bool}, b = true → b = false → False := by
    intro b h1 h2
    rw [h1] at h2
    exact Bool.noConfusion h2
  have Fr : ∀ c ∈ (identify_metrics d).revenue_columns, revTok c = true := by
    intro c h
    obtain ⟨a, _, hr, _⟩ := (mem_revenue_identifyAux _ _ c).mp h
    exact hr
  have Fd : ∀ c ∈ (identify_metrics d).date_columns,
      revTok c = false ∧ dateTok c = true := by
    intro c h
    obtain ⟨a, _, h1, h2⟩ := (mem_date_identifyAux _ _ c).mp h
    exact ⟨h1, h2⟩
  have Fp : ∀ c ∈ (identify_metrics d).percentage_columns,
      revTok c = false ∧ dateTok c = false ∧ pctTok c = true := by
    intro c h
    obtain ⟨a, _, h1, h2, h3⟩ := (mem_percentage_identifyAux _ _ c).mp h
    exact ⟨h1, h2, h3⟩
  have Fi : ∀ c ∈ (identify_metrics d).id_columns,
      revTok c = false ∧ dateTok c = false ∧ pctTok c = false ∧ idTok c = true := by
    intro c h
    obtain ⟨a, _, h1, h2, h3, h4⟩ := (mem_id_identifyAux _ _ c).mp h
    exact ⟨h1, h2, h3, h4⟩
  have Fc : ∀ c ∈ (identify_metrics d).categorical_columns,
      revTok c = false ∧ dateTok c = false ∧ pctTok c = false ∧ idTok c = false := by
    intro c h
    obtain ⟨a, _, h1, h2, h3, h4, _, _⟩ := (mem_categorical_identifyAux _ _ c).mp h
    exact ⟨h1, h2, h3, h4⟩
  refine List.Pairwise.cons ?_ (List.Pairwise.cons ?_ (List.Pairwise.cons ?_
    (List.Pairwise.cons ?_ (List.Pairwise.cons ?_ List.Pairwise.nil))))
  · intro l hl
    simp only [List.mem_cons, List.mem_singleton, List.not_mem_nil, or_false] at hl
    rcases hl with rfl | rfl | rfl | rfl
    · exact fun c h1 h2 => clash (Fr c h1) (Fd c h2).1
    · exact fun c h1 h2 => clash (Fr c h1) (Fp c h2).1
    · exact fun c h1 h2 => clash (Fr c h1) (Fi c h2).1
    · exact fun c h1 h2 => clash (Fr c h1) (Fc c h2).1
  · intro l hl
    simp only [List.mem_cons, List.mem_singleton, List.not_mem_nil, or_false] at hl
    rcases hl with rfl | rfl | rfl
    · exact fun c h1 h2 => clash (Fd c h1).2 (Fp c h2).2.1
    · exact fun c h1 h2 => clash (Fd c h1).2 (Fi c h2).2.1
    · exact fun c h1 h2 => clash (Fd c h1).2 (Fc c h2).2.1
  · intro l hl
    simp only [List.mem_cons, List.mem_singleton, List.not_mem_nil, or_false] at hl
    rcases hl with rfl | rfl
    · exact fun c h1 h2 => clash (Fp c h1).2.2 (Fi c h2).2.2.1
    · exact fun c h1 h2 => clash (Fp c h1).2.2 (Fc c h2).2.2.1
  · intro l hl
    simp only [List.mem_singleton, List.not_mem_nil, or_false] at hl
    rcases hl with rfl
    exact fun c h1 h2 => clash (Fi c h1).2.2.2 (Fc c h2).2.2.2
  · intro l hl
    simp only [List.not_mem_nil] at hl

/-- C6 (amended): membership in each metric group is characterized by
first-match priority over the profiled columns — with the proviso the code
imposes: a revenue-token column joins `revenue_columns` only when numeric
(a non-numeric revenue-token column joins no group at all), and a column
matching no token group joins `categorical_columns` exactly when it is
non-numeric and its distinct-value count is under half the record count. -/
theorem metric_group_membership_characterization (d : JsonData) (c : String) :
    (c ∈ (identify_metrics d).revenue_columns ↔
      ∃ a, (c, a) ∈ analyze_columns d ∧ revTok c = true ∧ a.is_numeric = true) ∧
    (c ∈ (identify_metrics d).date_columns ↔
      ∃ a, (c, a) ∈ analyze_columns d ∧ revTok c = false ∧ dateTok c = true) ∧
    (c ∈ (identify_metrics d).percentage_columns ↔
      ∃ a, (c, a) ∈ analyze_columns d ∧ revTok c = false ∧ dateTok c = false ∧
        pctTok c = true) ∧
    (c ∈ (identify_metrics d).id_columns ↔
      ∃ a, (c, a) ∈ analyze_columns d ∧ revTok c = false ∧ dateTok c = false ∧
        pctTok c = false ∧ idTok c = true) ∧
    (c ∈ (identify_metrics d).categorical_columns ↔
      ∃ a, (c, a) ∈ analyze_columns d ∧ revTok c = false ∧ dateTok c = false ∧
        pctTok c = false ∧ idTok c = false ∧ a.is_numeric = false ∧
        2 * a.unique_count < recordLen d) :=
  ⟨mem_revenue_identifyAux _ _ c, mem_date_identifyAux _ _ c,
   mem_percentage_identifyAux _ _ c, mem_id_identifyAux _ _ c,
   mem_categorical_identifyAux _ _ c⟩

/-- A two-record dataset whose only column bears a revenue token but holds
strings. -/
def nonNumericRevenueData : JsonData :=
  .jarr [[("revenue_note", .jstr "a")], [("revenue_note", .jstr "b")]]

/-- Counterexample to C6: the column `revenue_note` is profiled and its name
contains the revenue token `revenue`, yet — being non-numeric — it is not
placed in `revenue_columns` (nor anywhere else). -/
theorem nonnumeric_revenue_column_unclassified :
    (analyze_columns nonNumericRevenueData).map Prod.fst = ["revenue_note"] ∧
    strContains (strLower "revenue_note") "revenue" = true ∧
    "revenue_note" ∉ (identify_metrics nonNumericRevenueData).revenue_columns ∧
    identify_metrics nonNumericRevenueData = ⟨[], [], [], [], []⟩ := by decide

/-- Witness for C8: a 12-record dataset with fields `Month_Label` and
`Revenue` satisfies no higher-precedence rule and the `month_label` +
revenue disjunct, so it is classified `monthly_trends`. -/
theorem detect_pattern_monthly_rules_witness :
    (bridgeCond (["Month_Label", "Revenue"].map strLower) = false ∧
     customerCond (["Month_Label", "Revenue"].map strLower) = false ∧
     geoCond (["Month_Label", "Revenue"].map strLower) = false ∧
     quarterlyCond (["Month_Label", "Revenue"].map strLower) = false ∧
     monthLabelCond (["Month_Label", "Revenue"].map strLower) = true) ∧
    detect_data_pattern ["Month_Label", "Revenue"] 12 "monthly" = "monthly_trends" :=
  ⟨by decide,
    detect_pattern_monthly_rules ["Month_Label", "Revenue"] 12 "monthly"
      (by decide) (by decide) (by decide) (by decide) (Or.inl (by decide))⟩

end App



